import Mathlib

/-!
A shallow embedding of the time-series helper functions in
`data_helper.py`, together with proofs of the specification claims
about splitting, cleaning, decomposition and feature building.

Python floats are modelled as exact rationals, pandas Series as lists
of rationals (with `Option` entries for NaN where missing values
matter), and raised exceptions as `Except` errors.
-/

/-- The abstract error kinds of the specification.  `typeMismatch`
models a Python `TypeError`, `invalidArgument` a `ValueError`,
`keyNotFound` a missing-column failure (`KeyError` or the
`AttributeError` raised when an absent column is accessed as an
attribute), and `indexError` a positional `IndexError`. -/
inductive Err where
  | typeMismatch
  | invalidArgument
  | keyNotFound
  | indexError
deriving DecidableEq

/-- A Python numeric scalar: either an `int` or a `float`. -/
inductive PyNum where
  | int (z : ℤ)
  | float (q : ℚ)
deriving DecidableEq

/-- The numeric value carried by a Python scalar. -/
def PyNum.toRat : PyNum → ℚ
  | .int z => (z : ℚ)
  | .float q => q

/-- Round half to even, as Python `round(x, 0)` and pandas
`Series.round(0)` behave on the exact (rational) value. -/
def round_half_even (q : ℚ) : ℤ :=
  let f : ℤ := ⌊q⌋
  let r : ℚ := q - (f : ℚ)
  if r < 1/2 then f
  else if 1/2 < r then f + 1
  else if f % 2 = 0 then f else f + 1

/-- `split_data` from `data_helper.py` (lines 97-125).  `none` models a
non-Series argument (the `isinstance(data, pd.Series)` check); `split`
is a Python float, modelled as `ℚ`, so the `isinstance(split, float)`
check is carried by the type.  The split point is
`int(round(split * len(data), 0))` and the series is sliced into
`data[0:k]` and `data[k:len(data)]`. -/
def split_data (data : Option (List ℚ)) (split : ℚ) : Except Err (List ℚ × List ℚ) :=
  match data with
  | none => .error .typeMismatch
  | some xs =>
    if 0 < split ∧ split < 1 then
      let length_training := (round_half_even (split * (xs.length : ℚ))).toNat
      .ok (xs.take length_training, xs.drop length_training)
    else .error .invalidArgument

/-- Insert a value into an already sorted list of rationals. -/
def insertSorted (x : ℚ) : List ℚ → List ℚ
  | [] => [x]
  | y :: ys => if x ≤ y then x :: y :: ys else y :: insertSorted x ys

/-- Sort a list of rationals (insertion sort); models the internal
sort performed by `Series.quantile`. -/
def sortList (xs : List ℚ) : List ℚ := xs.foldr insertSorted []

/-- pandas `Series.quantile(p)` with the default linear interpolation:
position `h = p * (n - 1)` in the sorted values, interpolating between
the neighbouring order statistics. -/
def quantile (xs : List ℚ) (p : ℚ) : ℚ :=
  let s := sortList xs
  let n := s.length
  let h : ℚ := p * ((n : ℚ) - 1)
  let i : ℕ := (⌊h⌋).toNat
  let lo := s.getD i 0
  let hi := s.getD (i + 1) lo
  lo + (h - (⌊h⌋ : ℚ)) * (hi - lo)

/-- The IQR bounds computed in the `else` branch of `clean_data`
(`data_helper.py` lines 171-175): `q1 = quantile(.25)`,
`q3 = quantile(.75)`, `iqr = q3 - q1`, and the pair
`(q1 - threshold*iqr, q3 + threshold*iqr)`. -/
def iqr_bounds (xs : List ℚ) (threshold : ℚ) : ℚ × ℚ :=
  let q1 := quantile xs (1/4)
  let q3 := quantile xs (3/4)
  let iqr := q3 - q1
  (q1 - threshold * iqr, q3 + threshold * iqr)

/-- `clean_data` from `data_helper.py` (lines 128-188), without the
plotting side effect.  The `'value'` branch requires an `int`
threshold and keeps values strictly greater than it; every other
`clean_type` string reaches the IQR branch, which accepts `int` or
`float` thresholds and keeps values strictly between the IQR bounds.
The bounds themselves are only printed by the source, so the return
value is just the cleaned series. -/
def clean_data (data : Option (List ℚ)) (threshold : PyNum) (clean_type : String) :
    Except Err (List ℚ) :=
  if clean_type = "value" then
    match data with
    | none => .error .typeMismatch
    | some xs =>
      match threshold with
      | .float _ => .error .typeMismatch
      | .int t => .ok (xs.filter (fun v => decide ((t : ℚ) < v)))
  else
    match data with
    | none => .error .typeMismatch
    | some xs =>
      let b := iqr_bounds xs threshold.toRat
      .ok (xs.filter (fun v => decide (b.1 < v ∧ v < b.2)))

/-- Claim C1: for every series and every `0 < f < 1`, `split_data`
returns the contiguous prefix of length `round(f * len)` and the
remaining suffix; the two lengths add up to the input length and
concatenating train followed by test reconstructs the series. -/
theorem split_preserves_series_c1 (xs : List ℚ) (f : ℚ) (h1 : 0 < f) (h2 : f < 1) :
    split_data (some xs) f =
      .ok (xs.take (round_half_even (f * (xs.length : ℚ))).toNat,
           xs.drop (round_half_even (f * (xs.length : ℚ))).toNat) ∧
    (xs.take (round_half_even (f * (xs.length : ℚ))).toNat).length
      + (xs.drop (round_half_even (f * (xs.length : ℚ))).toNat).length = xs.length ∧
    xs.take (round_half_even (f * (xs.length : ℚ))).toNat
      ++ xs.drop (round_half_even (f * (xs.length : ℚ))).toNat = xs := by
  refine ⟨?_, ?_, List.take_append_drop _ _⟩
  · simp only [split_data, if_pos (And.intro h1 h2)]
  · simp only [List.length_take, List.length_drop]
    omega

theorem split_preserves_series_c1_witness :
    (0 : ℚ) < 1/2 ∧ (1/2 : ℚ) < 1 ∧
    split_data (some [1, 2, 3]) (1/2) = .ok ([1, 2], [3]) := by
  refine ⟨by norm_num, by norm_num, ?_⟩
  have h := (split_preserves_series_c1 [1, 2, 3] (1/2) (by norm_num) (by norm_num)).1
  have hf : ⌊(3/2 : ℚ)⌋ = 1 := by rw [Int.floor_eq_iff]; norm_num
  have hr : (round_half_even ((1/2 : ℚ) * (([1, 2, 3] : List ℚ).length : ℚ))).toNat = 2 := by
    norm_num [round_half_even, hf, show Int.toNat 2 = 2 from rfl]
  rw [h, hr]
  rfl

/-- Claim C9: `split_data` rejects a non-Series input with a
TypeMismatch (`TypeError`) and a float fraction outside `(0, 1)` with
an InvalidArgument (`ValueError`); in both cases no partial result is
returned, only the error. -/
theorem split_validation_c9 :
    (∀ f : ℚ, split_data none f = .error .typeMismatch) ∧
    (∀ (xs : List ℚ) (f : ℚ), ¬ (0 < f ∧ f < 1) →
      split_data (some xs) f = .error .invalidArgument) := by
  constructor
  · intro f; rfl
  · intro xs f h
    simp only [split_data, if_neg h]

theorem split_validation_c9_witness :
    split_data none 1 = .error .typeMismatch ∧
    (¬ ((0 : ℚ) < 2 ∧ (2 : ℚ) < 1)) ∧
    split_data (some [1]) 2 = .error .invalidArgument :=
  ⟨split_validation_c9.1 1, by norm_num, split_validation_c9.2 [1] 2 (by norm_num)⟩

/-- Claim C3: with the `'value'` policy, `clean_data` returns exactly
the elements strictly greater than the integer threshold, as an
order-preserving subsequence of the input, and rejects a float
(non-integer) threshold with a TypeMismatch (`TypeError`). -/
theorem clean_value_policy_c3 :
    (∀ (xs : List ℚ) (t : ℤ),
      clean_data (some xs) (.int t) "value" =
        .ok (xs.filter (fun v => decide ((t : ℚ) < v))) ∧
      (xs.filter (fun v => decide ((t : ℚ) < v))).Sublist xs ∧
      ∀ v ∈ xs.filter (fun v => decide ((t : ℚ) < v)), (t : ℚ) < v) ∧
    (∀ (xs : List ℚ) (q : ℚ),
      clean_data (some xs) (.float q) "value" = .error .typeMismatch) := by
  constructor
  · intro xs t
    refine ⟨rfl, List.filter_sublist xs, ?_⟩
    intro v hv
    exact of_decide_eq_true (List.mem_filter.mp hv).2
  · intro xs q; rfl

theorem clean_value_policy_c3_witness :
    clean_data (some [1, 5]) (.int 3) "value" = .ok [5] ∧
    clean_data (some [1, 5]) (.float (1/2)) "value" = .error .typeMismatch := by
  constructor
  · rw [(clean_value_policy_c3.1 [1, 5] 3).1]
    norm_num [List.filter]
  · exact clean_value_policy_c3.2 [1, 5] (1/2)

/-- Claim C2: the IQR policy computes `q1`/`q3` as the first/third
quartiles with linear interpolation, `iqr = q3 - q1`, bounds
`q1 - m*iqr` and `q3 + m*iqr`, and retains exactly the points strictly
between the bounds; on the fixture `[1,2,3,4,5,100]` with `m = 1.5`
the quartiles are `q1 = 2.25`, `q3 = 4.75` and `iqr = 2.5`. -/
theorem clean_iqr_policy_c2 :
    (∀ (xs : List ℚ) (m : PyNum) (s : String), s ≠ "value" →
      clean_data (some xs) m s =
        .ok (xs.filter (fun v =>
          decide ((iqr_bounds xs m.toRat).1 < v ∧ v < (iqr_bounds xs m.toRat).2)))) ∧
    quantile [1, 2, 3, 4, 5, 100] (1/4) = 9/4 ∧
    quantile [1, 2, 3, 4, 5, 100] (3/4) = 19/4 ∧
    quantile [1, 2, 3, 4, 5, 100] (3/4) - quantile [1, 2, 3, 4, 5, 100] (1/4) = 5/2 ∧
    iqr_bounds [1, 2, 3, 4, 5, 100] (3/2) = (-(3/2), 17/2) := by
  have hf1 : ⌊(5/4 : ℚ)⌋ = 1 := by rw [Int.floor_eq_iff]; norm_num
  have hf3 : ⌊(15/4 : ℚ)⌋ = 3 := by rw [Int.floor_eq_iff]; norm_num
  have hq1 : quantile [1, 2, 3, 4, 5, 100] (1/4) = 9/4 := by
    norm_num [quantile, sortList, insertSorted, hf1, show Int.toNat 1 = 1 from rfl]
  have hq3 : quantile [1, 2, 3, 4, 5, 100] (3/4) = 19/4 := by
    norm_num [quantile, sortList, insertSorted, hf3, show Int.toNat 3 = 3 from rfl]
  refine ⟨?_, hq1, hq3, by rw [hq1, hq3]; norm_num, by norm_num [iqr_bounds, hq1, hq3]⟩
  intro xs m s hs
  simp only [clean_data, if_neg hs]

theorem clean_iqr_policy_c2_witness :
    ("iqr" ≠ "value") ∧
    clean_data (some [1, 2, 3, 4, 5, 100]) (.float (3/2)) "iqr" = .ok [1, 2, 3, 4, 5] := by
  refine ⟨by decide, ?_⟩
  rw [clean_iqr_policy_c2.1 [1, 2, 3, 4, 5, 100] (.float (3/2)) "iqr" (by decide)]
  have hb := clean_iqr_policy_c2.2.2.2.2
  norm_num [PyNum.toRat, hb, List.filter]

/-- Claim C8 counterexample: two series with different IQR bounds give
identical `clean_data` return values, so the bounds cannot be part of
the return value (they are only printed to the console). -/
theorem clean_iqr_bounds_not_returned_c8_counterexample :
    clean_data (some [1, 2, 3, 4, 5, 100]) (.float (3/2)) "iqr" =
      clean_data (some [1, 2, 3, 4, 5]) (.float (3/2)) "iqr" ∧
    iqr_bounds [1, 2, 3, 4, 5, 100] (3/2) ≠ iqr_bounds [1, 2, 3, 4, 5] (3/2) := by
  have hne : ("iqr" : String) ≠ "value" := by decide
  have hf1 : ⌊(5/4 : ℚ)⌋ = 1 := by rw [Int.floor_eq_iff]; norm_num
  have hf3 : ⌊(15/4 : ℚ)⌋ = 3 := by rw [Int.floor_eq_iff]; norm_num
  have hfn1 : ⌊(1 : ℚ)⌋ = 1 := by rw [Int.floor_eq_iff]; norm_num
  have hfn3 : ⌊(3 : ℚ)⌋ = 3 := by rw [Int.floor_eq_iff]; norm_num
  have hq1 : quantile [1, 2, 3, 4, 5, 100] (1/4) = 9/4 := by
    norm_num [quantile, sortList, insertSorted, hf1, show Int.toNat 1 = 1 from rfl]
  have hq3 : quantile [1, 2, 3, 4, 5, 100] (3/4) = 19/4 := by
    norm_num [quantile, sortList, insertSorted, hf3, show Int.toNat 3 = 3 from rfl]
  have hp1 : quantile [1, 2, 3, 4, 5] (1/4) = 2 := by
    norm_num [quantile, sortList, insertSorted, hfn1, show Int.toNat 1 = 1 from rfl]
  have hp3 : quantile [1, 2, 3, 4, 5] (3/4) = 4 := by
    norm_num [quantile, sortList, insertSorted, hfn3, show Int.toNat 3 = 3 from rfl]
  have hb1 : iqr_bounds [1, 2, 3, 4, 5, 100] (3/2) = (-(3/2), 17/2) := by
    norm_num [iqr_bounds, hq1, hq3]
  have hb2 : iqr_bounds [1, 2, 3, 4, 5] (3/2) = (-1, 7) := by
    norm_num [iqr_bounds, hp1, hp3]
  constructor
  · simp only [clean_data, if_neg hne]
    norm_num [PyNum.toRat, hb1, hb2, List.filter]
  · rw [hb1, hb2]
    norm_num

/-- Claim C8 (amended): the IQR branch of `clean_data` returns only
the cleaned series; the computed bounds are printed to the console and
are not part of the return value. -/
theorem clean_iqr_return_only_series_c8 (xs : List ℚ) (m : PyNum) (s : String)
    (hs : s ≠ "value") :
    clean_data (some xs) m s =
      .ok (xs.filter (fun v =>
        decide ((iqr_bounds xs m.toRat).1 < v ∧ v < (iqr_bounds xs m.toRat).2))) := by
  simp only [clean_data, if_neg hs]

theorem clean_iqr_return_only_series_c8_witness :
    ("foo" ≠ "value") ∧
    clean_data (some [0, 10]) (.int 1) "foo" =
      .ok (([0, 10] : List ℚ).filter (fun v =>
        decide ((iqr_bounds [0, 10] (PyNum.int 1).toRat).1 < v ∧
          v < (iqr_bounds [0, 10] (PyNum.int 1).toRat).2))) :=
  ⟨by decide, clean_iqr_return_only_series_c8 [0, 10] (.int 1) "foo" (by decide)⟩

/-- Claim C10: any `clean_type` other than the exact string `"value"`
(including `"IQR"` or `"foo"`) silently selects the IQR branch; no
error is ever raised for an unrecognized policy tag. -/
theorem clean_unrecognized_tag_c10 (xs : List ℚ) (m : PyNum) (s : String)
    (hs : s ≠ "value") :
    clean_data (some xs) m s = clean_data (some xs) m "iqr" ∧
    ∀ e : Err, clean_data (some xs) m s ≠ .error e := by
  have hiqr : ("iqr" : String) ≠ "value" := by decide
  constructor
  · simp only [clean_data, if_neg hs, if_neg hiqr]
  · intro e h
    simp only [clean_data, if_neg hs] at h
    exact Except.noConfusion h

theorem clean_unrecognized_tag_c10_witness :
    ("IQR" ≠ "value") ∧
    (clean_data (some [1, 2, 3, 4, 5, 100]) (.float (3/2)) "IQR" =
      clean_data (some [1, 2, 3, 4, 5, 100]) (.float (3/2)) "iqr") ∧
    clean_data (some [1, 2, 3, 4, 5, 100]) (.float (3/2)) "IQR" ≠ .error .typeMismatch :=
  ⟨by decide,
   (clean_unrecognized_tag_c10 [1, 2, 3, 4, 5, 100] (.float (3/2)) "IQR" (by decide)).1,
   (clean_unrecognized_tag_c10 [1, 2, 3, 4, 5, 100] (.float (3/2)) "IQR" (by decide)).2
     .typeMismatch⟩

/-- A pandas Series as passed to `decompose_data`: its values (with
`none` for NaN) on its hourly grid, and whether its index is a
`DatetimeIndex`. -/
structure PySeries where
  values : List (Option ℚ)
  hasDatetimeIndex : Bool
deriving DecidableEq

/-- Forward-fill helper: propagate the last seen value over gaps. -/
def ffillGo : Option ℚ → List (Option ℚ) → List (Option ℚ)
  | _, [] => []
  | carry, none :: xs => carry :: ffillGo carry xs
  | _, some v :: xs => some v :: ffillGo (some v) xs

/-- `Series.fillna(method=...)`: `'ffill'` propagates forward,
`'bfill'` propagates backward (a forward fill of the reversal). -/
def fillna (method : String) (xs : List (Option ℚ)) : List (Option ℚ) :=
  if method = "ffill" then ffillGo none xs
  else (ffillGo none xs.reverse).reverse

/-- `Series.asfreq(freq='H', method=...)` on the embedded hourly grid:
alignment gaps are the `none` entries, filled with the same method. -/
def asfreqH (method : String) (xs : List (Option ℚ)) : List (Option ℚ) :=
  fillna method xs

/-- NaN-propagating element access. -/
def getO (xs : List (Option ℚ)) (i : ℕ) : Option ℚ :=
  (xs.get? i).getD none

/-- NaN-propagating sum, as numpy arithmetic over values with NaN. -/
def osum : List (Option ℚ) → Option ℚ
  | [] => some 0
  | x :: xs => do pure ((← x) + (← osum xs))

/-- NaN-propagating subtraction. -/
def osub (a b : Option ℚ) : Option ℚ := do pure ((← a) - (← b))

/-- The centred moving-average trend of `seasonal_decompose` with
period 24: a 2x24 convolution (half weight on the two endpoints),
undefined (NaN) on the half-window at each edge. -/
def trendAt (xs : List (Option ℚ)) (t : ℕ) : Option ℚ :=
  if 12 ≤ t ∧ t + 12 < xs.length then do
    let a ← getO xs (t - 12)
    let b ← getO xs (t + 12)
    let m ← osum ((List.range 23).map (fun j => getO xs (t - 11 + j)))
    pure ((a / 2 + m + b / 2) / 24)
  else none

/-- The trend component, aligned with the input index. -/
def trendList (xs : List (Option ℚ)) : List (Option ℚ) :=
  (List.range xs.length).map (trendAt xs)

/-- The detrended series `xs - trend`. -/
def detrended (xs : List (Option ℚ)) : List (Option ℚ) :=
  List.zipWith osub xs (trendList xs)

/-- The detrended values at hour-of-period `p` (indices `p mod 24`). -/
def phaseVals (xs : List (Option ℚ)) (p : ℕ) : List (Option ℚ) :=
  (List.range xs.length).filterMap
    (fun i => if i % 24 = p then some (getO xs i) else none)

/-- `np.nanmean`: the mean of the non-NaN values, NaN when empty. -/
def nanmean (xs : List (Option ℚ)) : Option ℚ :=
  let vs := xs.filterMap id
  if vs.length = 0 then none else some (vs.sum / (vs.length : ℚ))

/-- The 24 per-hour averages of the detrended series. -/
def periodAverages (xs : List (Option ℚ)) : List (Option ℚ) :=
  (List.range 24).map (fun p => nanmean (phaseVals xs p))

/-- The seasonal component: per-hour averages of the detrended series,
centred by their overall mean and tiled over the index. -/
def seasonalList (xs : List (Option ℚ)) : List (Option ℚ) :=
  let avgs := periodAverages (detrended xs)
  let meanAvg : Option ℚ := do pure ((← osum avgs) / 24)
  (List.range xs.length).map (fun t => do pure ((← getO avgs (t % 24)) - (← meanAvg)))

/-- The residual component `detrended - seasonal`. -/
def residList (xs : List (Option ℚ)) : List (Option ℚ) :=
  List.zipWith osub (detrended xs) (seasonalList xs)

/-- `decompose_data` from `data_helper.py` (lines 207-235): validates
that the input is a Series with a DatetimeIndex, validates the fill
method (the source raises a `TypeError` for any method other than
`'bfill'`/`'ffill'`; the identity comparison against the literals is
modelled as string equality), then fills gaps, aligns to the hourly
frequency and applies additive seasonal decomposition, returning the
four aligned columns of the result DataFrame. -/
def decompose_data (data : Option PySeries) (method : String) :
    Except Err (List (String × List (Option ℚ))) :=
  match data with
  | none => .error .typeMismatch
  | some s =>
    if s.hasDatetimeIndex = false then .error .typeMismatch
    else if method ≠ "bfill" ∧ method ≠ "ffill" then .error .typeMismatch
    else
      let hourly := asfreqH method (fillna method s.values)
      .ok [("Data", hourly), ("Trend", trendList hourly),
           ("Seasonality", seasonalList hourly), ("Noise", residList hourly)]

/-- Claim C7 counterexample: an unrecognized fill direction makes
`decompose_data` fail with a TypeMismatch (the source raises
`TypeError`), not with an InvalidArgument as claimed. -/
theorem decompose_fill_direction_c7_counterexample :
    decompose_data (some ⟨[some 1], true⟩) "foo" ≠ .error .invalidArgument ∧
    decompose_data (some ⟨[some 1], true⟩) "foo" = .error .typeMismatch := by
  constructor
  · intro h
    rw [show decompose_data (some ⟨[some 1], true⟩) "foo" = .error .typeMismatch from rfl] at h
    simp at h
  · rfl

/-- Claim C7 (amended): `decompose_data` on a Series with a
DatetimeIndex and a fill direction other than `'bfill'`/`'ffill'`
fails with a TypeMismatch (`TypeError`), raised before any computation
on the series values. -/
theorem decompose_fill_direction_c7 (vals : List (Option ℚ)) (method : String)
    (hm1 : method ≠ "bfill") (hm2 : method ≠ "ffill") :
    decompose_data (some ⟨vals, true⟩) method = .error .typeMismatch := by
  simp only [decompose_data]
  rw [if_neg (by simp), if_pos (And.intro hm1 hm2)]

theorem decompose_fill_direction_c7_witness :
    ("backward" ≠ "bfill") ∧ ("backward" ≠ "ffill") ∧
    decompose_data (some ⟨[some 1, none, some 3], true⟩) "backward" = .error .typeMismatch :=
  ⟨by decide, by decide,
   decompose_fill_direction_c7 [some 1, none, some 3] "backward" (by decide) (by decide)⟩

/-- A row timestamp of a pandas `DatetimeIndex`.  `month` stores the
calendar month minus one, so pandas `index.month` is `month.val + 1`
(1..12); `hour` is `index.hour` (0..23) and `weekday` is
`index.weekday` (0..6, Monday = 0). -/
structure Timestamp where
  month : Fin 12
  hour : Fin 24
  weekday : Fin 7
deriving DecidableEq

/-- A pandas DataFrame: a timestamp index and named columns of
optional (NaN-able) numeric values. -/
structure Table where
  index : List Timestamp
  cols : List (String × List (Option ℚ))
deriving DecidableEq

/-- Column access `df[name]` / `df.name`: the first column with the
given name, if any. -/
def lookupCol (t : Table) (name : String) : Option (List (Option ℚ)) :=
  (t.cols.find? (fun c => c.1 == name)).map (fun c => c.2)

/-- Column assignment `df[name] = v`: overwrite in place when the name
exists, otherwise append the new column at the end. -/
def setCol (cols : List (String × List (Option ℚ))) (name : String)
    (v : List (Option ℚ)) : List (String × List (Option ℚ)) :=
  if cols.any (fun c => c.1 == name) then
    cols.map (fun c => if c.1 == name then (name, v) else c)
  else cols ++ [(name, v)]

/-- `df.drop(name, axis=1)`: remove the columns with the given name. -/
def dropCol (name : String) (cols : List (String × List (Option ℚ))) :
    List (String × List (Option ℚ)) :=
  cols.filter (fun c => c.1 != name)

/-- `df.rename(columns={old: new})`: a no-op on columns whose name is
not `old`. -/
def renameCol (old new : String) (cols : List (String × List (Option ℚ))) :
    List (String × List (Option ℚ)) :=
  cols.map (fun c => if c.1 == old then (new, c.2) else c)

/-- The optional `df.rename(columns={'aiTIT4045': 'OAT'}, inplace=True)`
prologue of `create_standard_multivariable_df`. -/
def renameStep (r : Bool) (df : Table) : Table :=
  if r then { df with cols := renameCol "aiTIT4045" "OAT" df.cols } else df

/-- `CDD` before rounding: `OAT - 65.0`, clipped to `0.0` where
negative (lines 270-271). -/
def cddVal (x : ℚ) : ℚ := if x - 65 < 0 then 0 else x - 65

/-- `HDD` before rounding: `65.0 - OAT`, clipped to `0.0` where
negative (lines 272-273). -/
def hddVal (x : ℚ) : ℚ := if 65 - x < 0 then 0 else 65 - x

/-- `Series.round(0)` on one value. -/
def roundQ (x : ℚ) : ℚ := ((round_half_even x : ℤ) : ℚ)

/-- `Series.round(0)` on a column, NaN entries untouched. -/
def roundCol (c : List (Option ℚ)) : List (Option ℚ) := c.map (Option.map roundQ)

/-- `Series.shift(k)`: each value moves `k` steps later, the first `k`
entries become NaN, the length is preserved. -/
def shiftList (k : ℕ) (xs : List (Option ℚ)) : List (Option ℚ) :=
  (List.replicate k none ++ xs).take xs.length

/-- The month one-hot block: `get_dummies` on `MONTH`, reindexed to
`MONTH_1..MONTH_12` with absent categories filled with 0, then the
first column (`MONTH_1`) dropped (lines 282-287). -/
def month_dummies (index : List Timestamp) : List (String × List (Option ℚ)) :=
  (((List.range 12).map (fun k =>
    ("MONTH_" ++ toString (k + 1),
     index.map (fun ts => some (if ts.month.val + 1 = k + 1 then (1 : ℚ) else 0))))).drop 1)

/-- The hour-of-day one-hot block: `TOD_0..TOD_23`, first column
(`TOD_0`) dropped (lines 289-294). -/
def tod_dummies (index : List Timestamp) : List (String × List (Option ℚ)) :=
  (((List.range 24).map (fun k =>
    ("TOD_" ++ toString k,
     index.map (fun ts => some (if ts.hour.val = k then (1 : ℚ) else 0))))).drop 1)

/-- The day-of-week one-hot block: `DOW_0..DOW_6`, first column
(`DOW_0`) dropped (lines 296-301). -/
def dow_dummies (index : List Timestamp) : List (String × List (Option ℚ)) :=
  (((List.range 7).map (fun k =>
    ("DOW_" ++ toString k,
     index.map (fun ts => some (if ts.weekday.val = k then (1 : ℚ) else 0))))).drop 1)

/-- The `for i in range(shift)` loop (lines 306-308): each iteration
re-reads the base column by position and assigns `SHIFT_(i+1)`.  A
position out of range is a Python `IndexError`. -/
def applyShifts (p : ℕ) : Table → List ℕ → Except (Err × Table) Table
  | df, [] => .ok df
  | df, i :: rest =>
    match df.cols.get? p with
    | none => .error (.indexError, df)
    | some base =>
      let colsNext := setCol df.cols ("SHIFT_" ++ toString (i + 1)) (shiftList (i + 1) base.2)
      applyShifts p { df with cols := colsNext } rest

/-- Keep the rows at the given positions, in order. -/
def selectRows {α : Type} (keep : List ℕ) (xs : List α) : List α :=
  keep.filterMap (fun i => xs.get? i)

/-- `df.dropna()`: remove every row that has a NaN in any column. -/
def dropnaRows (t : Table) : Table :=
  let keep := (List.range t.index.length).filter
    (fun i => t.cols.all (fun c => (c.2.getD i none).isSome))
  { index := selectRows keep t.index,
    cols := t.cols.map (fun c => (c.1, selectRows keep c.2)) }

/-- `create_standard_multivariable_df` from `data_helper.py`
(lines 249-323).  The optional rename runs first; accessing `df.OAT`
when the column is absent raises the missing-column error before any
column is written, and the error carries the caller-visible state of
the mutated frame.  Then the degree-day columns, their squares, the
roundings, the calendar columns used to build the three one-hot
blocks, `WEEKEND`, the lag columns, the column concatenation, the drop
of the temporaries `MONTH`/`TOD`/`DOW`, and optionally `dropna`. -/
def create_standard_multivariable_df (df0 : Table) (point_location shift : ℕ)
    (rename_OAT dropna : Bool) : Except (Err × Table) Table :=
  let df1 := renameStep rename_OAT df0
  match lookupCol df1 "OAT" with
  | none => .error (.keyNotFound, df1)
  | some oat =>
    let cdd := oat.map (Option.map cddVal)
    let hdd := oat.map (Option.map hddVal)
    let cdd2 := cdd.map (Option.map (fun x => x ^ 2))
    let hdd2 := hdd.map (Option.map (fun x => x ^ 2))
    let cols2 := setCol (setCol (setCol (setCol df1.cols "CDD" cdd) "HDD" hdd)
      "CDD2" cdd2) "HDD2" hdd2
    let cols3 := setCol (setCol (setCol (setCol (setCol cols2
      "OAT" (roundCol oat)) "CDD" (roundCol cdd)) "HDD" (roundCol hdd))
      "CDD2" (roundCol cdd2)) "HDD2" (roundCol hdd2)
    let idx := df1.index
    let cols4 := setCol cols3 "MONTH" (idx.map (fun ts => some ((ts.month.val + 1 : ℕ) : ℚ)))
    let mdf := month_dummies idx
    let cols5 := setCol cols4 "TOD" (idx.map (fun ts => some ((ts.hour.val : ℕ) : ℚ)))
    let tdf := tod_dummies idx
    let cols6 := setCol cols5 "DOW" (idx.map (fun ts => some ((ts.weekday.val : ℕ) : ℚ)))
    let ddf := dow_dummies idx
    let cols7 := setCol cols6 "WEEKEND"
      (idx.map (fun ts => some (if ts.weekday.val = 5 ∨ ts.weekday.val = 6 then (1 : ℚ) else 0)))
    match applyShifts point_location ⟨idx, cols7⟩ (List.range shift) with
    | .error e => .error e
    | .ok dfS =>
      let cols8 := dfS.cols ++ mdf ++ tdf ++ ddf
      let cols9 := dropCol "DOW" (dropCol "TOD" (dropCol "MONTH" cols8))
      let dfF : Table := ⟨idx, cols9⟩
      .ok (if dropna then dropnaRows dfF else dfF)

/-- Project a named column out of a feature-builder result. -/
def getCol (r : Except (Err × Table) Table) (name : String) :
    Option (List (Option ℚ)) :=
  match r with
  | .ok t => lookupCol t name
  | .error _ => none

/-- Row access into a dummy column: the value at row `i`, reading NaN
or a missing row as 0. -/
def colAt (c : List (Option ℚ)) (i : ℕ) : ℚ := ((c.get? i).getD none).getD 0

/-- The 48-hourly-row fixture index: two consecutive days. -/
def fixtureIndex : List Timestamp :=
  (List.range 48).map (fun i =>
    ⟨⟨0, by norm_num⟩, ⟨i % 24, Nat.mod_lt i (by norm_num)⟩,
     ⟨(i / 24) % 7, Nat.mod_lt _ (by norm_num)⟩⟩)

/-- The fixture table: 48 hourly rows with a constant base column of 70. -/
def fixtureTable : Table :=
  { index := fixtureIndex, cols := [("OAT", List.replicate 48 (some 70))] }

lemma sum_ite_range (n c : ℕ) :
    ((List.range n).map (fun k => if c = k then (1 : ℚ) else 0)).sum
      = if c < n then 1 else 0 := by
  induction n with
  | zero => simp
  | succ n ih =>
    rw [show n + 1 = Nat.succ n from rfl, List.range_succ, List.map_append,
      List.sum_append, ih]
    by_cases h : c < n
    · have hne : c ≠ n := Nat.ne_of_lt h
      have h1 : c < n + 1 := Nat.lt_succ_of_lt h
      simp [h, hne, h1]
    · by_cases h2 : c = n
      · subst h2
        simp [h, Nat.lt_succ_self]
      · have h3 : ¬ c < n + 1 := by omega
        simp [h, h2, h3]

lemma sum_indicator_tail (n c : ℕ) (hc : c < n) :
    (((List.range n).map (fun k => if c = k then (1 : ℚ) else 0)).drop 1).sum
      + (if c = 0 then (1 : ℚ) else 0) = 1 := by
  cases n with
  | zero => omega
  | succ n =>
    rw [show n + 1 = Nat.succ n from rfl, List.range_succ_eq_map, List.map_cons,
      List.map_map]
    simp only [List.drop_succ_cons, List.drop_zero]
    rcases Nat.eq_zero_or_pos c with h0 | hpos
    · subst h0
      have hfun : ((fun k => if 0 = k then (1 : ℚ) else 0) ∘ Nat.succ)
          = fun _ => (0 : ℚ) := by
        funext k
        simp [(Nat.succ_ne_zero k).symm]
      rw [hfun]
      simp
    · obtain ⟨c', rfl⟩ : ∃ c', c = c' + 1 := ⟨c - 1, by omega⟩
      have hfun : ((fun k => if c' + 1 = k then (1 : ℚ) else 0) ∘ Nat.succ)
          = fun k => if c' = k then (1 : ℚ) else 0 := by
        funext k
        by_cases h : c' = k
        · simp [h]
        · have hne : c' + 1 ≠ k + 1 := by omega
          simp [h, hne]
      rw [hfun, sum_ite_range]
      have hlt : c' < n := by omega
      simp [hlt]

lemma dummy_sum (idx : List Timestamp) (i : ℕ) (n : ℕ) (f : Timestamp → ℕ)
    (name : ℕ → String) (ts : Timestamp) (h : idx.get? i = some ts) (hc : f ts < n) :
    ((((List.range n).map (fun k =>
        (name k, idx.map (fun t => some (if f t = k then (1 : ℚ) else 0))))).drop 1).map
      (fun c => colAt c.2 i)).sum + (if f ts = 0 then (1 : ℚ) else 0) = 1 := by
  rw [List.map_drop, List.map_map]
  have hcol : ((fun c => colAt c.2 i) ∘ (fun k =>
      (name k, idx.map (fun t => some (if f t = k then (1 : ℚ) else 0)))))
      = fun k => if f ts = k then (1 : ℚ) else 0 := by
    funext k
    simp only [Function.comp_apply, colAt, List.get?_map, h, Option.map_some',
      Option.getD_some]
  rw [hcol]
  exact sum_indicator_tail n (f ts) hc

/-- Claim C5: the one-hot blocks emit 11 month, 23 hour and 6
day-of-week indicator columns (the first category of each group is
dropped), and on every row the emitted indicators of a group plus the
implicit dropped reference category sum to exactly 1. -/
theorem features_onehot_c5 (idx : List Timestamp) (i : ℕ) (ts : Timestamp)
    (h : idx.get? i = some ts) :
    (month_dummies idx).length = 11 ∧ (tod_dummies idx).length = 23 ∧
    (dow_dummies idx).length = 6 ∧
    ((month_dummies idx).map (fun c => colAt c.2 i)).sum
      + (if ts.month.val = 0 then (1 : ℚ) else 0) = 1 ∧
    ((tod_dummies idx).map (fun c => colAt c.2 i)).sum
      + (if ts.hour.val = 0 then (1 : ℚ) else 0) = 1 ∧
    ((dow_dummies idx).map (fun c => colAt c.2 i)).sum
      + (if ts.weekday.val = 0 then (1 : ℚ) else 0) = 1 := by
  refine ⟨by simp [month_dummies], by simp [tod_dummies], by simp [dow_dummies],
    ?_, ?_, ?_⟩
  · have hm : month_dummies idx
        = ((List.range 12).map (fun k =>
            ("MONTH_" ++ toString (k + 1),
             idx.map (fun t => some (if t.month.val = k then (1 : ℚ) else 0))))).drop 1 := by
      simp only [month_dummies, add_left_inj]
    rw [hm]
    exact dummy_sum idx i 12 (fun t => t.month.val)
      (fun k => "MONTH_" ++ toString (k + 1)) ts h ts.month.isLt
  · exact dummy_sum idx i 24 (fun t => t.hour.val)
      (fun k => "TOD_" ++ toString k) ts h ts.hour.isLt
  · exact dummy_sum idx i 7 (fun t => t.weekday.val)
      (fun k => "DOW_" ++ toString k) ts h ts.weekday.isLt

theorem features_onehot_c5_witness :
    (([(⟨1, 2, 3⟩ : Timestamp)]).get? 0 = some (⟨1, 2, 3⟩ : Timestamp)) ∧
    ((month_dummies [(⟨1, 2, 3⟩ : Timestamp)]).map (fun c => colAt c.2 0)).sum
      + (if (⟨1, 2, 3⟩ : Timestamp).month.val = 0 then (1 : ℚ) else 0) = 1 ∧
    ((tod_dummies [(⟨1, 2, 3⟩ : Timestamp)]).map (fun c => colAt c.2 0)).sum
      + (if (⟨1, 2, 3⟩ : Timestamp).hour.val = 0 then (1 : ℚ) else 0) = 1 :=
  ⟨rfl, (features_onehot_c5 [⟨1, 2, 3⟩] 0 ⟨1, 2, 3⟩ rfl).2.2.2.1,
   (features_onehot_c5 [⟨1, 2, 3⟩] 0 ⟨1, 2, 3⟩ rfl).2.2.2.2.1⟩

lemma renameCol_eq_self_of_not_found (cols : List (String × List (Option ℚ)))
    (h : (renameCol "aiTIT4045" "OAT" cols).find? (fun c => c.1 == "OAT") = none) :
    renameCol "aiTIT4045" "OAT" cols = cols := by
  have h' := List.find?_eq_none.mp h
  have hpt : ∀ c ∈ cols,
      (fun c => if c.1 == "aiTIT4045" then ("OAT", c.2) else c) c = id c := by
    intro c hc
    by_cases hc1 : c.1 == "aiTIT4045"
    · exfalso
      have hmem : (if c.1 == "aiTIT4045" then ("OAT", c.2) else c)
          ∈ renameCol "aiTIT4045" "OAT" cols :=
        List.mem_map_of_mem _ hc
      rw [if_pos hc1] at hmem
      exact h' _ hmem (by simp)
    · simp [hc1]
  unfold renameCol
  rw [List.map_congr_left hpt, List.map_id]

/-- Claim C6: when the base column `OAT` cannot be obtained (it is
absent, and the optional rename finds no `aiTIT4045` column to turn
into it), `create_standard_multivariable_df` fails with the
missing-column error, produces no output table, and the caller-visible
frame is exactly the unmodified input: no renamed or added column. -/
theorem features_missing_base_column_c6 (df : Table) (p k : ℕ) (r d : Bool)
    (h : lookupCol (renameStep r df) "OAT" = none) :
    create_standard_multivariable_df df p k r d = .error (.keyNotFound, df) := by
  have hstep : renameStep r df = df := by
    cases r with
    | false => rfl
    | true =>
      have hcols : (renameStep true df).cols = renameCol "aiTIT4045" "OAT" df.cols := rfl
      have hfind : (renameCol "aiTIT4045" "OAT" df.cols).find?
          (fun c => c.1 == "OAT") = none := by
        have h2 := h
        unfold lookupCol at h2
        rw [hcols] at h2
        exact Option.map_eq_none'.mp h2
      show renameStep true df = df
      have : renameCol "aiTIT4045" "OAT" df.cols = df.cols :=
        renameCol_eq_self_of_not_found df.cols hfind
      simp [renameStep, this]
  rw [hstep] at h
  simp only [create_standard_multivariable_df, hstep, h]

theorem features_missing_base_column_c6_witness :
    lookupCol (renameStep true ⟨[], [("TEMP", [some 1])]⟩) "OAT" = none ∧
    create_standard_multivariable_df ⟨[], [("TEMP", [some 1])]⟩ 0 1 true true
      = .error (.keyNotFound, ⟨[], [("TEMP", [some 1])]⟩) := by
  have hlook : lookupCol (renameStep true ⟨[], [("TEMP", [some 1])]⟩) "OAT" = none := by
    simp [lookupCol, renameStep, renameCol]
  exact ⟨hlook, features_missing_base_column_c6 _ 0 1 true true hlook⟩

/-- Claim C4: per row the feature builder computes
`CDD = max(base - 65, 0)` and `HDD = max(65 - base, 0)` (then rounds
them to the nearest integer), and squares the pre-rounding values for
`CDD2`/`HDD2`; on the 48-hourly-row fixture with constant base 70
every row has `CDD = 5`, `HDD = 0`, `CDD2 = 25`, `HDD2 = 0`, and with
one lag exactly one `SHIFT_1` value is missing: the first row's. -/
theorem features_degree_days_c4 :
    (∀ x : ℚ, cddVal x = max (x - 65) 0 ∧ hddVal x = max (65 - x) 0) ∧
    getCol (create_standard_multivariable_df fixtureTable 0 1 true false) "CDD"
      = some (List.replicate 48 (some 5)) ∧
    getCol (create_standard_multivariable_df fixtureTable 0 1 true false) "HDD"
      = some (List.replicate 48 (some 0)) ∧
    getCol (create_standard_multivariable_df fixtureTable 0 1 true false) "CDD2"
      = some (List.replicate 48 (some 25)) ∧
    getCol (create_standard_multivariable_df fixtureTable 0 1 true false) "HDD2"
      = some (List.replicate 48 (some 0)) ∧
    getCol (create_standard_multivariable_df fixtureTable 0 1 true false) "SHIFT_1"
      = some (none :: List.replicate 47 (some 70)) ∧
    (none :: List.replicate 47 (some (70 : ℚ))).count none = 1 := by
  have hmax : ∀ x : ℚ, cddVal x = max (x - 65) 0 ∧ hddVal x = max (65 - x) 0 := by
    intro x
    constructor
    · by_cases h : x - 65 < 0
      · rw [cddVal, if_pos h]
        exact (max_eq_right (le_of_lt h)).symm
      · rw [cddVal, if_neg h]
        exact (max_eq_left (not_lt.mp h)).symm
    · by_cases h : 65 - x < 0
      · rw [hddVal, if_pos h]
        exact (max_eq_right (le_of_lt h)).symm
      · rw [hddVal, if_neg h]
        exact (max_eq_left (not_lt.mp h)).symm
  have hrQ : ∀ z : ℤ, roundQ (z : ℚ) = (z : ℚ) := by
    intro z
    have hlt : ((z : ℚ)) - ((z : ℤ) : ℚ) < 1/2 := by norm_num
    simp only [roundQ, round_half_even, Int.floor_intCast]
    rw [if_pos hlt]
  have h70 : roundQ 70 = 70 := by have := hrQ 70; norm_num at this; exact this
  have h5 : roundQ 5 = 5 := by have := hrQ 5; norm_num at this; exact this
  have h0q : roundQ 0 = 0 := by have := hrQ 0; norm_num at this; exact this
  have h25 : roundQ 25 = 25 := by have := hrQ 25; norm_num at this; exact this
  have hcv : cddVal 70 = 5 := by norm_num [cddVal]
  have hhv : hddVal 70 = 0 := by norm_num [hddVal]
  have hcddcol : (List.replicate 48 (some (70 : ℚ))).map (Option.map cddVal)
      = List.replicate 48 (some 5) := by simp [List.map_replicate, hcv]
  have hhddcol : (List.replicate 48 (some (70 : ℚ))).map (Option.map hddVal)
      = List.replicate 48 (some 0) := by simp [List.map_replicate, hhv]
  have hc2col : (List.replicate 48 (some (5 : ℚ))).map (Option.map (fun x => x ^ 2))
      = List.replicate 48 (some 25) := by simp [List.map_replicate]; norm_num
  have hh2col : (List.replicate 48 (some (0 : ℚ))).map (Option.map (fun x => x ^ 2))
      = List.replicate 48 (some 0) := by simp [List.map_replicate]
  have hround70 : roundCol (List.replicate 48 (some (70 : ℚ)))
      = List.replicate 48 (some 70) := by simp [roundCol, List.map_replicate, h70]
  have hround5 : roundCol (List.replicate 48 (some (5 : ℚ)))
      = List.replicate 48 (some 5) := by simp [roundCol, List.map_replicate, h5]
  have hround0 : roundCol (List.replicate 48 (some (0 : ℚ)))
      = List.replicate 48 (some 0) := by simp [roundCol, List.map_replicate, h0q]
  have hround25 : roundCol (List.replicate 48 (some (25 : ℚ)))
      = List.replicate 48 (some 25) := by simp [roundCol, List.map_replicate, h25]
  have hshift : shiftList 1 (List.replicate 48 (some (70 : ℚ)))
      = none :: List.replicate 47 (some 70) := by
    rw [shiftList, List.take_append_eq_append_take]
    simp [List.take_replicate]
  have h0 : renameStep true fixtureTable = fixtureTable := by
    simp [renameStep, renameCol, fixtureTable]
  have h1 : lookupCol fixtureTable "OAT" = some (List.replicate 48 (some 70)) := by
    simp [lookupCol, fixtureTable]
  have hidx : fixtureTable.index = fixtureIndex := rfl
  have hcols : fixtureTable.cols = [("OAT", List.replicate 48 (some 70))] := rfl
  have hr1 : List.range 1 = [0] := rfl
  have hname : ("SHIFT_" ++ toString (0 + 1) : String) = "SHIFT_1" := by decide
  refine ⟨hmax, ?_, ?_, ?_, ?_, ?_, by simp⟩
  all_goals
    simp [create_standard_multivariable_df, getCol, lookupCol, setCol, dropCol,
      applyShifts, h0, h1, hidx, hcols, hcddcol, hhddcol, hc2col, hh2col,
      hround70, hround5, hround0, hround25, hshift, hr1, hname,
      List.filter_append, List.find?_append, -List.reduceReplicate]
